import Mathlib

/-!
Verification of the distributed-actor ad-hoc requirement resolver and
serialization-requirement validator (lib/Sema/TypeCheckDistributed.cpp).

Types appearing in declaration signatures are modelled as `STy` (a generic
parameter reference or a concrete nominal type name); protocol identities are
modelled as strings; the external conformance oracle
`TypeChecker::conformsToProtocol` is a function parameter; diagnostics are
collected in a list instead of being sent to the diagnostic engine.
-/

/-- Types as they appear in candidate signatures: a reference to one of the
candidate generic parameters (by position) or a concrete nominal type. -/
inductive STy
  | genericParam (idx : Nat)
  | concrete (name : String)
  deriving DecidableEq

/-- Structured diagnostic records, one constructor per `diagnose` call site in
TypeCheckDistributed.cpp that the embedded functions can reach. -/
inductive Diag
  | missingAdHocRequirement (opName : String)
  | missingAdHocRequirementNote (opName : String)
  | witnessNotAccessible (funcName : String)
  | paramNotCodable (argumentName : String) (requirementName : String)
  | funcInOut (paramName : String)
  | funcVariadic (paramName : String)
  | resultNotCodable (resultType : String)
  | ctorMissingTransportParam (ctorName : String)
  | ctorMustHaveOneSystemParam (ctorName : String) (count : Nat)
  deriving DecidableEq

/-- Swift access levels in their source order (AccessLevel enum);
`getEffectiveAccess` comparisons in the C++ use this order. -/
inductive AccessLevel
  | Private
  | FilePrivate
  | Internal
  | Public
  | Open
  deriving DecidableEq

/-- Numeric rank giving the visibility order of access levels. -/
def AccessLevel.rank : AccessLevel → Nat
  | .Private => 0
  | .FilePrivate => 1
  | .Internal => 2
  | .Public => 3
  | .Open => 4

/-- Modelled from the spec: a member named `remoteCall` or `remoteCallVoid` as
seen by the structural matcher `AbstractFunctionDecl::isDistributedActorSystemRemoteCall`,
which is declared outside these sources (only its caller is in
TypeCheckDistributed.cpp). Each field records one structural fact the template
of spec section 4.2 tests: the number of generic parameters, whether the
generic requirements bind the actor role to the actor abstraction, bind the
actor identity associated type, bind the error role, and bind the result role
to every protocol of the serialization requirement; the parameter label
sequence; whether the invocation-carrier parameter is in-out; the effect
qualifiers; and the declared return type (`none` means the declaration has no
declared return value). -/
structure CallCandidate where
  name : String
  access : AccessLevel
  genericParamCount : Nat
  actorBoundToDistributedActor : Bool
  actorIDBoundToActorID : Bool
  errorBoundToError : Bool
  resultCoversSerialization : Bool
  paramLabels : List String
  invocationParamIsInOut : Bool
  isAsync : Bool
  isThrowing : Bool
  declaredResult : Option STy
  deriving DecidableEq

/-- The fixed label sequence of the value-returning call operation. -/
def remoteCallLabels : List String :=
  ["on", "target", "invocation", "throwing", "returning"]

/-- The fixed label sequence of the void-returning call operation. -/
def remoteCallVoidLabels : List String :=
  ["on", "target", "invocation", "throwing"]

/-- Modelled from the spec: the structural template test
`AbstractFunctionDecl::isDistributedActorSystemRemoteCall(isVoidReturn)`,
declared outside these sources. The value-returning variant requires the three
generic roles, all four requirement bindings, the five fixed labels with an
in-out invocation carrier, both effect qualifiers, and a return type exactly
equal to the third (result) generic parameter. The void-returning variant
omits the result role and the returning label and requires the declared
return to be absent. -/
def isDistributedActorSystemRemoteCall (c : CallCandidate) (isVoidReturn : Bool) : Bool :=
  if isVoidReturn then
    decide (c.genericParamCount = 2) && c.actorBoundToDistributedActor &&
    c.actorIDBoundToActorID && c.errorBoundToError &&
    decide (c.paramLabels = remoteCallVoidLabels) && c.invocationParamIsInOut &&
    c.isAsync && c.isThrowing && decide (c.declaredResult = none)
  else
    decide (c.genericParamCount = 3) && c.actorBoundToDistributedActor &&
    c.actorIDBoundToActorID && c.errorBoundToError && c.resultCoversSerialization &&
    decide (c.paramLabels = remoteCallLabels) && c.invocationParamIsInOut &&
    c.isAsync && c.isThrowing && decide (c.declaredResult = some (STy.genericParam 2))

/-- Embeds `findDistributedAdHocRequirement` (TypeCheckDistributed.cpp:59-81):
if the Distributed module is not loaded, return "not found" immediately and
deliberately without diagnosing (the C++ comment notes it avoids
`ensureDistributedModuleLoaded` precisely to avoid the warning); otherwise
return the first member accepted by the match function. The member list stands
for `decl->lookupDirect(identifier)` restricted to function declarations. -/
def findDistributedAdHocRequirement {α : Type} (distributedModuleLoaded : Bool)
    (members : List α) (matchFn : α → Bool) : Option α × List Diag :=
  if !distributedModuleLoaded then (none, [])
  else (members.find? matchFn, [])

/-- Embeds `checkAdHocRequirementAccessControl` (TypeCheckDistributed.cpp:186-208):
a null function reports no failure; a resolved function is a hard failure iff
the conforming declaration has effective access at least public while the
function does not have effective access exactly public. -/
def checkAdHocRequirementAccessControl (declAccess : AccessLevel)
    (func : Option CallCandidate) : Bool × List Diag :=
  match func with
  | none => (false, [])
  | some f =>
    if AccessLevel.Public.rank ≤ declAccess.rank ∧ f.access ≠ AccessLevel.Public then
      (true, [Diag.witnessNotAccessible f.name])
    else
      (false, [])

/-- Embeds the DistributedActorSystem branch of
`checkDistributedActorSystemAdHocProtocolRequirements`
(TypeCheckDistributed.cpp:210-275): resolve `remoteCall` and `remoteCallVoid`
through `findDistributedAdHocRequirement`; a missing resolution is recorded
(and the missing-witness error plus its signature note emitted) only when
`diagnose` is set; each resolved operation additionally passes through the
access-control check. The two member lists stand for the direct lookups of the
two operation names. -/
def checkDistributedActorSystemAdHocProtocolRequirements
    (distributedModuleLoaded : Bool) (declAccess : AccessLevel)
    (remoteCallMembers remoteCallVoidMembers : List CallCandidate)
    (diagnose : Bool) : Bool × List Diag :=
  let remoteCallDecl := (findDistributedAdHocRequirement distributedModuleLoaded
      remoteCallMembers (fun f => isDistributedActorSystemRemoteCall f false)).fst
  let missingCall := remoteCallDecl.isNone && diagnose
  let callDiags := if remoteCallDecl.isNone && diagnose then
      [Diag.missingAdHocRequirement "remoteCall",
       Diag.missingAdHocRequirementNote "remoteCall"] else []
  let callAccess := checkAdHocRequirementAccessControl declAccess remoteCallDecl
  let remoteCallVoidDecl := (findDistributedAdHocRequirement distributedModuleLoaded
      remoteCallVoidMembers (fun f => isDistributedActorSystemRemoteCall f true)).fst
  let missingVoid := remoteCallVoidDecl.isNone && diagnose
  let voidDiags := if remoteCallVoidDecl.isNone && diagnose then
      [Diag.missingAdHocRequirement "remoteCallVoid",
       Diag.missingAdHocRequirementNote "remoteCallVoid"] else []
  let voidAccess := checkAdHocRequirementAccessControl declAccess remoteCallVoidDecl
  (missingCall || callAccess.fst || missingVoid || voidAccess.fst,
   callDiags ++ callAccess.snd ++ voidDiags ++ voidAccess.snd)

/-- A function or initializer parameter as the validator sees it: its name,
its argument label, its interface type (a nominal type name), and whether it
is declared in-out or variadic. -/
structure ParamDecl where
  name : String
  argumentName : String
  interfaceType : String
  isInOut : Bool
  isVariadic : Bool
  deriving DecidableEq

/-- The void result type, `resultType->isVoid()` in the C++. -/
def tyIsVoid (ty : String) : Bool := ty == "()"

/-- Embeds `checkDistributedTargetResultType` (TypeCheckDistributed.cpp:335-393):
a void result always passes; otherwise, for each serialization-requirement
protocol whose conformance check fails, the function diagnoses and returns
true only when `diagnose` is set — with `diagnose` unset the loop falls
through and the function returns false even for a non-conforming result. -/
def checkDistributedTargetResultType (conforms : String → String → Bool)
    (serializationRequirements : List String) (resultType : String)
    (diagnose : Bool) : Bool × List Diag :=
  if tyIsVoid resultType then (false, [])
  else
    match serializationRequirements.find? (fun req => !conforms resultType req) with
    | some _ => if diagnose then (true, [Diag.resultNotCodable resultType]) else (false, [])
    | none => (false, [])

/-- Embeds the parameter loop of `checkDistributedFunction`
(TypeCheckDistributed.cpp:424-464): per parameter, a serialization-requirement
conformance failure returns true at once (diagnosing only when `diagnose` is
set); then an in-out parameter returns true at once with its diagnostic; then
a variadic parameter only emits an advisory diagnostic and the loop
continues. -/
def checkDistributedFunctionParams (conforms : String → String → Bool)
    (serializationRequirements : List String) (diagnose : Bool) :
    List ParamDecl → Bool × List Diag
  | [] => (false, [])
  | param :: rest =>
    match serializationRequirements.find? (fun req => !conforms param.interfaceType req) with
    | some req =>
      (true, if diagnose then [Diag.paramNotCodable param.argumentName req] else [])
    | none =>
      if param.isInOut then
        (true, [Diag.funcInOut param.name])
      else
        let tail := checkDistributedFunctionParams conforms serializationRequirements diagnose rest
        ((if param.isVariadic then [Diag.funcVariadic param.name] else []) ++ tail.snd
          |> fun diags => (tail.fst, diags))

/-- Embeds `checkDistributedFunction` (TypeCheckDistributed.cpp:401-472) for a
given effective serialization-requirement set (extracted by the caller from
the enclosing extension or actor, lines 410-417): run the parameter loop, and
only if it did not return check the result type. -/
def checkDistributedFunction (conforms : String → String → Bool)
    (serializationRequirements : List String) (params : List ParamDecl)
    (resultType : String) (diagnose : Bool) : Bool × List Diag :=
  let paramsRes := checkDistributedFunctionParams conforms serializationRequirements diagnose params
  if paramsRes.fst then (true, paramsRes.snd)
  else
    let resultRes :=
      checkDistributedTargetResultType conforms serializationRequirements resultType diagnose
    (resultRes.fst, paramsRes.snd ++ resultRes.snd)

/-- The advisory diagnostics the parameter loop emits for a run of parameters
it passes over: one variadic diagnostic per variadic parameter, in order. -/
def variadicAdvisories : List ParamDecl → List Diag
  | [] => []
  | q :: rest =>
    (if q.isVariadic then [Diag.funcVariadic q.name] else []) ++ variadicAdvisories rest

/-- A constructor declaration as `checkDistributedActorConstructor` sees it. -/
structure CtorDecl where
  name : String
  isDesignatedInit : Bool
  params : List ParamDecl
  deriving DecidableEq

/-- The number of constructor parameters whose type equals the actor-system
type bound to the enclosing distributed actor (the loop of
TypeCheckDistributed.cpp:547-557). -/
def transportParamsCount (actorSystemTy : String) (ctor : CtorDecl) : Nat :=
  (ctor.params.filter (fun p => decide (p.interfaceType = actorSystemTy))).length

/-- Embeds `checkDistributedActorConstructor` (TypeCheckDistributed.cpp:536-575):
non-distributed-actor declarations and non-designated initializers are never
checked; otherwise zero actor-system-typed parameters diagnoses the missing
transport parameter, exactly one succeeds silently, and two or more diagnoses
the requirement with the offending count. -/
def checkDistributedActorConstructor (isDistributedActor : Bool)
    (actorSystemTy : String) (ctor : CtorDecl) : List Diag :=
  if !isDistributedActor then []
  else if !ctor.isDesignatedInit then []
  else if transportParamsCount actorSystemTy ctor = 0 then
    [Diag.ctorMissingTransportParam ctor.name]
  else if transportParamsCount actorSystemTy ctor = 1 then []
  else
    [Diag.ctorMustHaveOneSystemParam ctor.name (transportParamsCount actorSystemTy ctor)]

/-- The bound serialization-requirement type of a nominal type, as resolved by
the external `getDistributedSerializationRequirementType`: either a type
carrying an upstream error, or a constraint whose flattening (by the external
`flattenDistributedSerializationTypeToRequiredProtocols`) is the given
protocol list — the empty list standing for the universal, unconstrained
type. -/
inductive SerializationReqTy
  | errorTy
  | constraint (protocols : List String)
  deriving DecidableEq

/-- Embeds `getDistributedSerializationRequirementProtocols`
(TypeCheckDistributed.cpp:608-627): a missing protocol yields the empty set,
a bound type with an error yields the empty set, and otherwise the flattened
protocol set of the constraint is returned. -/
def getDistributedSerializationRequirementProtocols
    (protocol : Option String) (boundTy : SerializationReqTy) : List String :=
  match protocol with
  | none => []
  | some _ =>
    match boundTy with
    | SerializationReqTy.errorTy => []
    | SerializationReqTy.constraint ps => ps

/-- Kinds of generic requirements (`RequirementKind` in the C++ AST). -/
inductive RequirementKind
  | conformance
  | superclass
  | sameType
  | layout
  deriving DecidableEq

/-- One entry of `getGenericRequirements()`: the constrained subject type, the
requirement kind, and the protocol name (meaningful for conformance
requirements). -/
structure GenericRequirement where
  firstType : STy
  kind : RequirementKind
  protocolName : String
  deriving DecidableEq

/-- A member found by the `decodeNextArgument` lookup, as
`GetDistributedActorArgumentDecodingMethodRequest::evaluate` inspects it. -/
structure DecodeFuncDecl where
  name : String
  hasAsync : Bool
  hasThrows : Bool
  paramCount : Nat
  genericParamCount : Nat
  resultType : STy
  genericRequirements : List GenericRequirement
  deriving DecidableEq

/-- The shape conditions of the decoding-operation candidate filter
(TypeCheckDistributed.cpp:692-713): not async, throwing, zero value
parameters, exactly one generic parameter, and a result type exactly equal to
that generic parameter. -/
def decodeShapeOk (fd : DecodeFuncDecl) : Bool :=
  !fd.hasAsync && fd.hasThrows && decide (fd.paramCount = 0) &&
  decide (fd.genericParamCount = 1) && decide (fd.resultType = STy.genericParam 0)

/-- Embeds the `numSerializationReqsCovered` count
(TypeCheckDistributed.cpp:717-724): the number of generic requirements that
constrain the single generic parameter, are conformance requirements, and
name a protocol belonging to the serialization-requirement set. -/
def numSerializationReqsCovered (serializationReqs : Finset String)
    (fd : DecodeFuncDecl) : Nat :=
  fd.genericRequirements.countP (fun requirement =>
    decide (requirement.firstType = STy.genericParam 0) &&
    decide (requirement.kind = RequirementKind.conformance) &&
    decide (requirement.protocolName ∈ serializationReqs))

/-- The complete candidate predicate of the decoding-operation filter
(TypeCheckDistributed.cpp:692-731): the shape conditions, and the count of
covered serialization requirements equal to the size of the
serialization-requirement set. -/
def decodeNextArgumentMatches (serializationReqs : Finset String)
    (fd : DecodeFuncDecl) : Bool :=
  decodeShapeOk fd &&
  decide (numSerializationReqsCovered serializationReqs fd = serializationReqs.card)

/-- Result of resolving the argument-decoding method: the unique candidate, or
the `assert(candidates.size() == 1)` trap when the candidate count is not
exactly one. -/
inductive DecodeMethodResult
  | found (fd : DecodeFuncDecl)
  | trap
  deriving DecidableEq

/-- Embeds `GetDistributedActorArgumentDecodingMethodRequest::evaluate`
(TypeCheckDistributed.cpp:672-737): filter the looked-up members through the
candidate predicate; exactly one candidate is returned, any other count trips
the assertion. -/
def getDistributedActorArgumentDecodingMethod (serializationReqs : Finset String)
    (members : List DecodeFuncDecl) : DecodeMethodResult :=
  match members.filter (decodeNextArgumentMatches serializationReqs) with
  | [candidate] => DecodeMethodResult.found candidate
  | _ => DecodeMethodResult.trap

/-! ## Theorems -/

/-- Every structural condition of the value-returning call-operation template
except the return-type identity. -/
abbrev remoteCallShapeExceptReturn (c : CallCandidate) : Prop :=
  c.genericParamCount = 3 ∧ c.actorBoundToDistributedActor = true ∧
  c.actorIDBoundToActorID = true ∧ c.errorBoundToError = true ∧
  c.resultCoversSerialization = true ∧ c.paramLabels = remoteCallLabels ∧
  c.invocationParamIsInOut = true ∧ c.isAsync = true ∧ c.isThrowing = true

/-- Every structural condition of the void-returning call-operation template
except the absent-return condition. -/
abbrev remoteCallVoidShapeExceptReturn (c : CallCandidate) : Prop :=
  c.genericParamCount = 2 ∧ c.actorBoundToDistributedActor = true ∧
  c.actorIDBoundToActorID = true ∧ c.errorBoundToError = true ∧
  c.paramLabels = remoteCallVoidLabels ∧ c.invocationParamIsInOut = true ∧
  c.isAsync = true ∧ c.isThrowing = true

/-- C1: a call-operation candidate that satisfies every structural condition
of its template except the exact return-type identity is not a match for
either variant; resolution over members consisting of such a candidate
reports "not found", and the upstream ad-hoc sweep run with diagnosing on
reports the missing-witness failure with its diagnostics for both call
operations. -/
theorem remoteCall_wrong_return_type_excluded
    (c cv : CallCandidate) (declAccess : AccessLevel)
    (hc : remoteCallShapeExceptReturn c)
    (hcr : c.declaredResult ≠ some (STy.genericParam 2))
    (hv : remoteCallVoidShapeExceptReturn cv)
    (hvr : cv.declaredResult ≠ none) :
    isDistributedActorSystemRemoteCall c false = false ∧
    isDistributedActorSystemRemoteCall cv true = false ∧
    (findDistributedAdHocRequirement true [c]
        (fun f => isDistributedActorSystemRemoteCall f false)).fst = none ∧
    (findDistributedAdHocRequirement true [cv]
        (fun f => isDistributedActorSystemRemoteCall f true)).fst = none ∧
    (checkDistributedActorSystemAdHocProtocolRequirements true declAccess
        [c] [cv] true).fst = true ∧
    Diag.missingAdHocRequirement "remoteCall" ∈
      (checkDistributedActorSystemAdHocProtocolRequirements true declAccess
        [c] [cv] true).snd ∧
    Diag.missingAdHocRequirement "remoteCallVoid" ∈
      (checkDistributedActorSystemAdHocProtocolRequirements true declAccess
        [c] [cv] true).snd := by
  have hdc : decide (c.declaredResult = some (STy.genericParam 2)) = false :=
    decide_eq_false hcr
  have hdv : decide (cv.declaredResult = none) = false := decide_eq_false hvr
  have h1 : isDistributedActorSystemRemoteCall c false = false := by
    simp [isDistributedActorSystemRemoteCall, hdc]
  have h2 : isDistributedActorSystemRemoteCall cv true = false := by
    simp [isDistributedActorSystemRemoteCall, hdv]
  have h3 : (findDistributedAdHocRequirement true [c]
      (fun f => isDistributedActorSystemRemoteCall f false)).fst = none := by
    simp [findDistributedAdHocRequirement, List.find?, h1]
  have h4 : (findDistributedAdHocRequirement true [cv]
      (fun f => isDistributedActorSystemRemoteCall f true)).fst = none := by
    simp [findDistributedAdHocRequirement, List.find?, h2]
  refine ⟨h1, h2, h3, h4, ?_, ?_, ?_⟩ <;>
    simp [checkDistributedActorSystemAdHocProtocolRequirements, h3, h4,
      checkAdHocRequirementAccessControl]

/-- Concrete instance for `remoteCall_wrong_return_type_excluded`: the two
candidates of the `Error_wrongReturn` regression test, declaring concrete
`String` return types in place of the result generic parameter and of the
absent return. -/
theorem remoteCall_wrong_return_type_excluded_witness :
    (remoteCallShapeExceptReturn
        ⟨"remoteCall", AccessLevel.Public, 3, true, true, true, true,
          remoteCallLabels, true, true, true, some (STy.concrete "String")⟩ ∧
      (⟨"remoteCall", AccessLevel.Public, 3, true, true, true, true,
          remoteCallLabels, true, true, true,
          some (STy.concrete "String")⟩ : CallCandidate).declaredResult ≠
        some (STy.genericParam 2) ∧
      remoteCallVoidShapeExceptReturn
        ⟨"remoteCallVoid", AccessLevel.Public, 2, true, true, true, false,
          remoteCallVoidLabels, true, true, true, some (STy.concrete "String")⟩ ∧
      (⟨"remoteCallVoid", AccessLevel.Public, 2, true, true, true, false,
          remoteCallVoidLabels, true, true, true,
          some (STy.concrete "String")⟩ : CallCandidate).declaredResult ≠ none) ∧
    (checkDistributedActorSystemAdHocProtocolRequirements true AccessLevel.Internal
        [⟨"remoteCall", AccessLevel.Public, 3, true, true, true, true,
          remoteCallLabels, true, true, true, some (STy.concrete "String")⟩]
        [⟨"remoteCallVoid", AccessLevel.Public, 2, true, true, true, false,
          remoteCallVoidLabels, true, true, true, some (STy.concrete "String")⟩]
        true).fst = true :=
  ⟨⟨by decide, by decide, by decide, by decide⟩,
    (remoteCall_wrong_return_type_excluded
      ⟨"remoteCall", AccessLevel.Public, 3, true, true, true, true,
        remoteCallLabels, true, true, true, some (STy.concrete "String")⟩
      ⟨"remoteCallVoid", AccessLevel.Public, 2, true, true, true, false,
        remoteCallVoidLabels, true, true, true, some (STy.concrete "String")⟩
      AccessLevel.Internal (by decide) (by decide) (by decide) (by decide)).2.2.2.2.1⟩

/-- C2: whenever two or more members satisfy the next-argument-decoding
candidate predicate, resolution trips the `assert(candidates.size() == 1)`
trap instead of silently returning one of them. -/
theorem decodeNextArgument_tie_traps (serializationReqs : Finset String)
    (members : List DecodeFuncDecl)
    (h : 2 ≤ (members.filter (decodeNextArgumentMatches serializationReqs)).length) :
    getDistributedActorArgumentDecodingMethod serializationReqs members =
      DecodeMethodResult.trap := by
  unfold getDistributedActorArgumentDecodingMethod
  cases hfl : members.filter (decodeNextArgumentMatches serializationReqs) with
  | nil => simp [hfl] at h
  | cons a tail =>
    cases tail with
    | nil => simp [hfl] at h
    | cons b l => rfl

/-- Concrete instance for `decodeNextArgument_tie_traps`: two decoding methods
that both satisfy the predicate under the unconstrained (empty) serialization
requirement. -/
theorem decodeNextArgument_tie_traps_witness :
    2 ≤ (([⟨"decodeNextArgument", false, true, 0, 1, STy.genericParam 0, []⟩,
           ⟨"decodeNextArgument2", false, true, 0, 1, STy.genericParam 0, []⟩] :
          List DecodeFuncDecl).filter (decodeNextArgumentMatches ∅)).length ∧
    getDistributedActorArgumentDecodingMethod ∅
        [⟨"decodeNextArgument", false, true, 0, 1, STy.genericParam 0, []⟩,
         ⟨"decodeNextArgument2", false, true, 0, 1, STy.genericParam 0, []⟩] =
      DecodeMethodResult.trap :=
  ⟨by decide,
    decodeNextArgument_tie_traps ∅
      [⟨"decodeNextArgument", false, true, 0, 1, STy.genericParam 0, []⟩,
       ⟨"decodeNextArgument2", false, true, 0, 1, STy.genericParam 0, []⟩]
      (by decide)⟩

/-- C3: for a shape-valid decoding-operation candidate, acceptance holds
exactly when the number of conformance constraints on its generic parameter
that belong to the serialization-requirement set equals the size of that set;
covering strictly fewer protocols rejects the candidate; and under the empty
(unconstrained) requirement every shape-valid candidate is accepted no matter
what constraints its generic parameter carries. -/
theorem decodeNextArgument_acceptance (serializationReqs : Finset String)
    (fd : DecodeFuncDecl) (hshape : decodeShapeOk fd = true) :
    (decodeNextArgumentMatches serializationReqs fd = true ↔
      numSerializationReqsCovered serializationReqs fd = serializationReqs.card) ∧
    (numSerializationReqsCovered serializationReqs fd < serializationReqs.card →
      decodeNextArgumentMatches serializationReqs fd = false) ∧
    ((serializationReqs : Finset String) = ∅ →
      decodeNextArgumentMatches serializationReqs fd = true) := by
  refine ⟨?_, ?_, ?_⟩
  · simp [decodeNextArgumentMatches, hshape]
  · intro hlt
    simp [decodeNextArgumentMatches, hshape, Nat.ne_of_lt hlt]
  · intro hS
    subst hS
    have hzero : numSerializationReqsCovered ∅ fd = 0 := by
      unfold numSerializationReqsCovered
      refine List.countP_eq_zero.mpr ?_
      intro r hr
      simp
    simp [decodeNextArgumentMatches, hshape, hzero]

/-- Concrete instance for `decodeNextArgument_acceptance`: a candidate
constrained to Encodable, Decodable and an unrelated protocol, under the
serialization requirement consisting of Encodable and Decodable; the
unrelated constraint is ignored and the candidate is accepted. -/
theorem decodeNextArgument_acceptance_witness :
    decodeShapeOk
        ⟨"decodeNextArgument", false, true, 0, 1, STy.genericParam 0,
          [⟨STy.genericParam 0, RequirementKind.conformance, "Encodable"⟩,
           ⟨STy.genericParam 0, RequirementKind.conformance, "Decodable"⟩,
           ⟨STy.genericParam 0, RequirementKind.conformance, "SomeProtocol"⟩]⟩ = true ∧
    (decodeNextArgumentMatches ({"Encodable", "Decodable"} : Finset String)
        ⟨"decodeNextArgument", false, true, 0, 1, STy.genericParam 0,
          [⟨STy.genericParam 0, RequirementKind.conformance, "Encodable"⟩,
           ⟨STy.genericParam 0, RequirementKind.conformance, "Decodable"⟩,
           ⟨STy.genericParam 0, RequirementKind.conformance, "SomeProtocol"⟩]⟩ = true ↔
      numSerializationReqsCovered ({"Encodable", "Decodable"} : Finset String)
        ⟨"decodeNextArgument", false, true, 0, 1, STy.genericParam 0,
          [⟨STy.genericParam 0, RequirementKind.conformance, "Encodable"⟩,
           ⟨STy.genericParam 0, RequirementKind.conformance, "Decodable"⟩,
           ⟨STy.genericParam 0, RequirementKind.conformance, "SomeProtocol"⟩]⟩ =
        ({"Encodable", "Decodable"} : Finset String).card) :=
  ⟨by decide,
    (decodeNextArgument_acceptance ({"Encodable", "Decodable"} : Finset String)
      ⟨"decodeNextArgument", false, true, 0, 1, STy.genericParam 0,
        [⟨STy.genericParam 0, RequirementKind.conformance, "Encodable"⟩,
         ⟨STy.genericParam 0, RequirementKind.conformance, "Decodable"⟩,
         ⟨STy.genericParam 0, RequirementKind.conformance, "SomeProtocol"⟩]⟩
      (by decide)).1⟩

/-- C4 counterexample: a distributed function with two parameters that both
fail the serialization requirement is diagnosed for the first parameter only —
the validator returns at the first failure instead of collecting every
defect, so the claim that all failures are diagnosed in one pass is false. -/
theorem checkDistributedFunction_first_error_only :
    (checkDistributedFunction (fun _ _ => false) ["Encodable"]
        [⟨"a", "a", "A", false, false⟩, ⟨"b", "b", "B", false, false⟩]
        "R" true).snd = [Diag.paramNotCodable "a" "Encodable"] ∧
    Diag.paramNotCodable "b" "Encodable" ∉
      (checkDistributedFunction (fun _ _ => false) ["Encodable"]
        [⟨"a", "a", "A", false, false⟩, ⟨"b", "b", "B", false, false⟩]
        "R" true).snd := by
  decide

/-- Helper: the parameter loop walks over a run of parameters that pass both
the conformance check and the in-out check, accumulating their variadic
advisories in front of whatever the loop does on the remaining parameters. -/
lemma checkDistributedFunctionParams_append_passing (conforms : String → String → Bool)
    (serializationRequirements : List String) (diagnose : Bool)
    (pre tail : List ParamDecl)
    (hpre : ∀ q ∈ pre,
      serializationRequirements.find? (fun r => !conforms q.interfaceType r) = none ∧
      q.isInOut = false) :
    checkDistributedFunctionParams conforms serializationRequirements diagnose
        (pre ++ tail) =
      ((checkDistributedFunctionParams conforms serializationRequirements diagnose
          tail).fst,
       variadicAdvisories pre ++
        (checkDistributedFunctionParams conforms serializationRequirements diagnose
          tail).snd) := by
  induction pre with
  | nil => simp [variadicAdvisories]
  | cons q pre ih =>
    obtain ⟨hf, hio⟩ := hpre q (List.mem_cons_self q pre)
    have ih2 := ih (fun x hx => hpre x (List.mem_cons_of_mem q hx))
    simp [checkDistributedFunctionParams, hf, hio, ih2, variadicAdvisories]

/-- C4 amended: validation of a distributed function does not collect defects
across the declaration: wherever in the parameter list the first hard failure
occurs — a parameter failing the serialization-requirement conformance, or
one passing it but declared in-out — the validator returns true diagnosing
only that defect, preceded exactly by the variadic advisories of the earlier
(passing) parameters; the parameters after it and the result type are not
examined in that pass. -/
theorem checkDistributedFunction_short_circuits (conforms : String → String → Bool)
    (serializationRequirements : List String) (pre : List ParamDecl)
    (p : ParamDecl) (rest : List ParamDecl) (resultType : String) (diagnose : Bool)
    (hpre : ∀ q ∈ pre,
      serializationRequirements.find? (fun r => !conforms q.interfaceType r) = none ∧
      q.isInOut = false) :
    (∀ req, serializationRequirements.find? (fun r => !conforms p.interfaceType r) =
        some req →
      checkDistributedFunction conforms serializationRequirements
          (pre ++ p :: rest) resultType diagnose =
        (true, variadicAdvisories pre ++
          (if diagnose then [Diag.paramNotCodable p.argumentName req] else []))) ∧
    (serializationRequirements.find? (fun r => !conforms p.interfaceType r) = none →
      p.isInOut = true →
      checkDistributedFunction conforms serializationRequirements
          (pre ++ p :: rest) resultType diagnose =
        (true, variadicAdvisories pre ++ [Diag.funcInOut p.name])) := by
  have happ := checkDistributedFunctionParams_append_passing conforms
    serializationRequirements diagnose pre (p :: rest) hpre
  constructor
  · intro req hreq
    have hp : checkDistributedFunctionParams conforms serializationRequirements
        diagnose (p :: rest) =
        (true, if diagnose then [Diag.paramNotCodable p.argumentName req] else []) := by
      simp [checkDistributedFunctionParams, hreq]
    rw [hp] at happ
    simp [checkDistributedFunction, happ]
  · intro hnone hio
    have hp : checkDistributedFunctionParams conforms serializationRequirements
        diagnose (p :: rest) = (true, [Diag.funcInOut p.name]) := by
      simp [checkDistributedFunctionParams, hnone, hio]
    rw [hp] at happ
    simp [checkDistributedFunction, happ]

/-- Concrete instance for `checkDistributedFunction_short_circuits`: the first
hard failure sits after a passing variadic parameter, once as a conformance
failure and once as an in-out parameter; in both runs it alone is diagnosed,
after the variadic advisory, and the defective later parameter is never
examined. -/
theorem checkDistributedFunction_short_circuits_witness :
    (∀ q ∈ ([⟨"xs", "xs", "String", false, true⟩] : List ParamDecl),
      ["Encodable"].find? (fun r => !(fun t _ => t == "String") q.interfaceType r) =
        none ∧ q.isInOut = false) ∧
    (["Encodable"].find?
        (fun r => !(fun t _ => t == "String")
          (ParamDecl.interfaceType ⟨"b", "b", "B", false, false⟩) r) =
      some "Encodable") ∧
    checkDistributedFunction (fun t _ => t == "String") ["Encodable"]
        ([⟨"xs", "xs", "String", false, true⟩] ++
          ⟨"b", "b", "B", false, false⟩ :: [⟨"c", "c", "C", true, false⟩]) "R" true =
      (true, variadicAdvisories [⟨"xs", "xs", "String", false, true⟩] ++
        (if true then [Diag.paramNotCodable "b" "Encodable"] else [])) ∧
    checkDistributedFunction (fun t _ => t == "String") ["Encodable"]
        ([⟨"xs", "xs", "String", false, true⟩] ++
          ⟨"x", "x", "String", true, false⟩ :: [⟨"c", "c", "C", true, false⟩]) "R" true =
      (true, variadicAdvisories [⟨"xs", "xs", "String", false, true⟩] ++
        [Diag.funcInOut "x"]) :=
  ⟨by decide, by decide,
    (checkDistributedFunction_short_circuits (fun t _ => t == "String") ["Encodable"]
      [⟨"xs", "xs", "String", false, true⟩] ⟨"b", "b", "B", false, false⟩
      [⟨"c", "c", "C", true, false⟩] "R" true (by decide)).1 "Encodable" (by decide),
    (checkDistributedFunction_short_circuits (fun t _ => t == "String") ["Encodable"]
      [⟨"xs", "xs", "String", false, true⟩] ⟨"x", "x", "String", true, false⟩
      [⟨"c", "c", "C", true, false⟩] "R" true (by decide)).2 (by decide) (by decide)⟩

/-- C5: for a designated initializer of a distributed actor, validation is
silent exactly when exactly one parameter has the actor-system type; zero
such parameters yields the missing-transport-parameter diagnostic; two or
more yields the diagnostic reporting the count; and initializers that are not
designated are never checked. -/
theorem checkDistributedActorConstructor_transport_arity
    (actorSystemTy : String) (ctor : CtorDecl)
    (hdesig : ctor.isDesignatedInit = true) :
    (checkDistributedActorConstructor true actorSystemTy ctor = [] ↔
      transportParamsCount actorSystemTy ctor = 1) ∧
    (transportParamsCount actorSystemTy ctor = 0 →
      checkDistributedActorConstructor true actorSystemTy ctor =
        [Diag.ctorMissingTransportParam ctor.name]) ∧
    (2 ≤ transportParamsCount actorSystemTy ctor →
      checkDistributedActorConstructor true actorSystemTy ctor =
        [Diag.ctorMustHaveOneSystemParam ctor.name
          (transportParamsCount actorSystemTy ctor)]) ∧
    (∀ c : CtorDecl, c.isDesignatedInit = false →
      checkDistributedActorConstructor true actorSystemTy c = []) := by
  have hch : checkDistributedActorConstructor true actorSystemTy ctor =
      (if transportParamsCount actorSystemTy ctor = 0 then
        [Diag.ctorMissingTransportParam ctor.name]
      else if transportParamsCount actorSystemTy ctor = 1 then []
      else
        [Diag.ctorMustHaveOneSystemParam ctor.name
          (transportParamsCount actorSystemTy ctor)]) := by
    simp [checkDistributedActorConstructor, hdesig]
  refine ⟨?_, ?_, ?_, ?_⟩
  · rw [hch]
    split_ifs with h0 h1
    · simp [h0]
    · simp [h1]
    · simp [h0, h1]
  · intro h0
    rw [hch]
    simp [h0]
  · intro h2
    rw [hch]
    have h0 : transportParamsCount actorSystemTy ctor ≠ 0 := by omega
    have h1 : transportParamsCount actorSystemTy ctor ≠ 1 := by omega
    simp [h0, h1]
  · intro c hc
    simp [checkDistributedActorConstructor, hc]

/-- Concrete instance for `checkDistributedActorConstructor_transport_arity`:
a designated initializer with two parameters of the actor-system type. -/
theorem checkDistributedActorConstructor_transport_arity_witness :
    (CtorDecl.isDesignatedInit
        ⟨"init", true, [⟨"system", "system", "FakeActorSystem", false, false⟩,
          ⟨"other", "other", "FakeActorSystem", false, false⟩]⟩ = true) ∧
    checkDistributedActorConstructor true "FakeActorSystem"
        ⟨"init", true, [⟨"system", "system", "FakeActorSystem", false, false⟩,
          ⟨"other", "other", "FakeActorSystem", false, false⟩]⟩ =
      [Diag.ctorMustHaveOneSystemParam "init" 2] :=
  ⟨by decide,
    (checkDistributedActorConstructor_transport_arity "FakeActorSystem"
      ⟨"init", true, [⟨"system", "system", "FakeActorSystem", false, false⟩,
        ⟨"other", "other", "FakeActorSystem", false, false⟩]⟩
      (by decide)).2.2.1 (by decide)⟩

/-- C6: when the conforming type has effective access public or more visible,
a resolved ad-hoc operation whose effective access is less visible than
public is a hard failure of the access-control check even though its
structural shape matched; an unresolved operation makes the access-control
check itself report no failure. -/
theorem checkAdHocRequirementAccessControl_visibility
    (declAccess : AccessLevel) (f : CallCandidate)
    (hdecl : AccessLevel.Public.rank ≤ declAccess.rank)
    (hfunc : f.access.rank < AccessLevel.Public.rank) :
    checkAdHocRequirementAccessControl declAccess (some f) =
      (true, [Diag.witnessNotAccessible f.name]) ∧
    ∀ d : AccessLevel, checkAdHocRequirementAccessControl d none = (false, []) := by
  have hne : f.access ≠ AccessLevel.Public := by
    intro hEq
    rw [hEq] at hfunc
    exact absurd hfunc (by decide)
  exact ⟨by simp [checkAdHocRequirementAccessControl, hdecl, hne], fun d => rfl⟩

/-- Concrete instance for `checkAdHocRequirementAccessControl_visibility`: a
public conforming type with an internal `remoteCall` implementation, as in
the `BadRemoteCall_notPublic` regression test. -/
theorem checkAdHocRequirementAccessControl_visibility_witness :
    (AccessLevel.Public.rank ≤ AccessLevel.Public.rank ∧
      (AccessLevel.Internal.rank < AccessLevel.Public.rank)) ∧
    checkAdHocRequirementAccessControl AccessLevel.Public
        (some ⟨"remoteCall", AccessLevel.Internal, 3, true, true, true, true,
          remoteCallLabels, true, true, true, some (STy.genericParam 2)⟩) =
      (true, [Diag.witnessNotAccessible "remoteCall"]) :=
  ⟨⟨by decide, by decide⟩,
    (checkAdHocRequirementAccessControl_visibility AccessLevel.Public
      ⟨"remoteCall", AccessLevel.Internal, 3, true, true, true, true,
        remoteCallLabels, true, true, true, some (STy.genericParam 2)⟩
      (by decide) (by decide)).1⟩

/-- C7: an in-out parameter always makes the validator report a hard failure
(return true), while a variadic parameter that passes the conformance check
only yields the advisory variadic diagnostic and the validator still returns
false. -/
theorem checkDistributedFunction_inout_hard_variadic_advisory
    (conforms : String → String → Bool) (serializationRequirements : List String)
    (p q : ParamDecl) (resultType : String) (diagnose : Bool)
    (hp : p.isInOut = true)
    (hqConf : serializationRequirements.find? (fun r => !conforms q.interfaceType r) = none)
    (hqInOut : q.isInOut = false) (hqVar : q.isVariadic = true)
    (hres : tyIsVoid resultType = true) :
    (checkDistributedFunction conforms serializationRequirements [p]
        resultType diagnose).fst = true ∧
    checkDistributedFunction conforms serializationRequirements [q]
        resultType diagnose = (false, [Diag.funcVariadic q.name]) := by
  constructor
  · cases hf : serializationRequirements.find? (fun r => !conforms p.interfaceType r) with
    | some req => simp [checkDistributedFunction, checkDistributedFunctionParams, hf]
    | none => simp [checkDistributedFunction, checkDistributedFunctionParams, hf, hp]
  · simp [checkDistributedFunction, checkDistributedFunctionParams, hqConf, hqInOut,
      hqVar, checkDistributedTargetResultType, hres]

/-- Concrete instance for
`checkDistributedFunction_inout_hard_variadic_advisory`: a Codable in-out
parameter and a Codable variadic parameter on a void-returning distributed
function. -/
theorem checkDistributedFunction_inout_hard_variadic_advisory_witness :
    ((⟨"x", "x", "String", true, false⟩ : ParamDecl).isInOut = true ∧
      ["Encodable"].find?
          (fun r => !(fun _ _ => true) (ParamDecl.interfaceType ⟨"xs", "xs", "String", false, true⟩) r) =
        none ∧
      (⟨"xs", "xs", "String", false, true⟩ : ParamDecl).isInOut = false ∧
      (⟨"xs", "xs", "String", false, true⟩ : ParamDecl).isVariadic = true ∧
      tyIsVoid "()" = true) ∧
    (checkDistributedFunction (fun _ _ => true) ["Encodable"]
        [⟨"x", "x", "String", true, false⟩] "()" true).fst = true ∧
    checkDistributedFunction (fun _ _ => true) ["Encodable"]
        [⟨"xs", "xs", "String", false, true⟩] "()" true =
      (false, [Diag.funcVariadic "xs"]) :=
  ⟨⟨by decide, by decide, by decide, by decide, by decide⟩,
    checkDistributedFunction_inout_hard_variadic_advisory (fun _ _ => true)
      ["Encodable"] ⟨"x", "x", "String", true, false⟩
      ⟨"xs", "xs", "String", false, true⟩ "()" true
      (by decide) (by decide) (by decide) (by decide) (by decide)⟩

/-- Helper: when every parameter passes the serialization-requirement
conformance check and none is in-out, the parameter loop reports no hard
failure and emits at most variadic advisories. -/
lemma checkDistributedFunctionParams_all_pass (conforms : String → String → Bool)
    (serializationRequirements : List String) (diagnose : Bool)
    (params : List ParamDecl)
    (h : ∀ p ∈ params,
      serializationRequirements.find? (fun r => !conforms p.interfaceType r) = none ∧
      p.isInOut = false) :
    (checkDistributedFunctionParams conforms serializationRequirements diagnose
        params).fst = false ∧
    ∀ d ∈ (checkDistributedFunctionParams conforms serializationRequirements diagnose
        params).snd, ∃ paramName, d = Diag.funcVariadic paramName := by
  induction params with
  | nil =>
    refine ⟨rfl, ?_⟩
    intro d hd
    simp [checkDistributedFunctionParams] at hd
  | cons p rest ih =>
    obtain ⟨hf, hio⟩ := h p (List.mem_cons_self p rest)
    obtain ⟨ihf, ihd⟩ := ih (fun q hq => h q (List.mem_cons_of_mem p hq))
    constructor
    · simp [checkDistributedFunctionParams, hf, hio, ihf]
    · intro d hd
      by_cases hv : p.isVariadic
      · simp [checkDistributedFunctionParams, hf, hio, hv] at hd
        rcases hd with hd | hd
        · exact ⟨p.name, hd⟩
        · exact ihd d hd
      · simp [checkDistributedFunctionParams, hf, hio, hv] at hd
        exact ihd d hd

/-- C8: an unresolvable bound serialization-requirement type yields the empty
protocol set, and a distributed function validated against that empty set
(with no in-out parameter) reports no hard failure and emits no
conformance diagnostics — at most variadic advisories — so the single
upstream error does not cascade. -/
theorem serializationRequirement_error_assumed_unconstrained
    (protocol : Option String) (conforms : String → String → Bool)
    (params : List ParamDecl) (resultType : String) (diagnose : Bool)
    (hio : ∀ p ∈ params, p.isInOut = false) :
    getDistributedSerializationRequirementProtocols protocol
        SerializationReqTy.errorTy = [] ∧
    (checkDistributedFunction conforms
        (getDistributedSerializationRequirementProtocols protocol
          SerializationReqTy.errorTy)
        params resultType diagnose).fst = false ∧
    ∀ d ∈ (checkDistributedFunction conforms
        (getDistributedSerializationRequirementProtocols protocol
          SerializationReqTy.errorTy)
        params resultType diagnose).snd,
      ∃ paramName, d = Diag.funcVariadic paramName := by
  have h0 : getDistributedSerializationRequirementProtocols protocol
      SerializationReqTy.errorTy = [] := by
    cases protocol <;> rfl
  rw [h0]
  obtain ⟨hclean, hcleand⟩ := checkDistributedFunctionParams_all_pass conforms []
    diagnose params (fun p hp => ⟨rfl, hio p hp⟩)
  have hres : checkDistributedTargetResultType conforms [] resultType diagnose =
      (false, []) := by
    unfold checkDistributedTargetResultType
    by_cases hv : tyIsVoid resultType <;> simp [hv, List.find?]
  refine ⟨rfl, ?_, ?_⟩
  · simp [checkDistributedFunction, hclean, hres]
  · intro d hd
    simp [checkDistributedFunction, hclean, hres] at hd
    exact hcleand d hd

/-- Concrete instance for `serializationRequirement_error_assumed_unconstrained`:
a two-parameter function, one variadic, validated under the requirement set
obtained from an unresolvable bound type. -/
theorem serializationRequirement_error_assumed_unconstrained_witness :
    (∀ p ∈ ([⟨"a", "a", "A", false, false⟩, ⟨"xs", "xs", "B", false, true⟩] :
        List ParamDecl), p.isInOut = false) ∧
    (checkDistributedFunction (fun _ _ => false)
        (getDistributedSerializationRequirementProtocols (some "DistributedActor")
          SerializationReqTy.errorTy)
        [⟨"a", "a", "A", false, false⟩, ⟨"xs", "xs", "B", false, true⟩]
        "R" true).fst = false :=
  ⟨by decide,
    (serializationRequirement_error_assumed_unconstrained (some "DistributedActor")
      (fun _ _ => false)
      [⟨"a", "a", "A", false, false⟩, ⟨"xs", "xs", "B", false, true⟩]
      "R" true (by decide)).2.1⟩

/-- C9: when the Distributed module is not loaded in the context, ad-hoc
requirement resolution short-circuits to "not found" for any member list and
match function, and emits no diagnostic. -/
theorem findDistributedAdHocRequirement_module_not_loaded {α : Type}
    (members : List α) (matchFn : α → Bool) :
    findDistributedAdHocRequirement false members matchFn = (none, []) := rfl

/-- C10: for a non-void result type failing some serialization-requirement
conformance, the result-type check returns true only when its diagnose flag
is set; with the flag unset it returns false with no diagnostics, and a
distributed function whose parameters all pass is therefore accepted
despite the non-conforming result. -/
theorem checkDistributedTargetResultType_diagnose_gate
    (conforms : String → String → Bool) (serializationRequirements : List String)
    (resultType : String) (params : List ParamDecl) (req : String)
    (hnv : tyIsVoid resultType = false)
    (hbad : serializationRequirements.find? (fun r => !conforms resultType r) =
      some req)
    (hparams : ∀ p ∈ params,
      serializationRequirements.find? (fun r => !conforms p.interfaceType r) = none ∧
      p.isInOut = false) :
    (checkDistributedTargetResultType conforms serializationRequirements
        resultType true).fst = true ∧
    checkDistributedTargetResultType conforms serializationRequirements
        resultType false = (false, []) ∧
    (checkDistributedFunction conforms serializationRequirements params
        resultType false).fst = false := by
  have h1 : (checkDistributedTargetResultType conforms serializationRequirements
      resultType true).fst = true := by
    simp [checkDistributedTargetResultType, hnv, hbad]
  have h2 : checkDistributedTargetResultType conforms serializationRequirements
      resultType false = (false, []) := by
    simp [checkDistributedTargetResultType, hnv, hbad]
  obtain ⟨hclean, hcleand⟩ := checkDistributedFunctionParams_all_pass conforms
    serializationRequirements false params hparams
  exact ⟨h1, h2, by simp [checkDistributedFunction, hclean, h2]⟩

/-- Concrete instance for `checkDistributedTargetResultType_diagnose_gate`: a
conforming parameter and a non-conforming result type, with conformance
failing for every type. -/
theorem checkDistributedTargetResultType_diagnose_gate_witness :
    (tyIsVoid "NotCodable" = false ∧
      ["Encodable"].find? (fun r => !(fun _ _ => false) "NotCodable" r) =
        some "Encodable") ∧
    (checkDistributedTargetResultType (fun _ _ => false) ["Encodable"]
        "NotCodable" true).fst = true ∧
    checkDistributedTargetResultType (fun _ _ => false) ["Encodable"]
        "NotCodable" false = (false, []) :=
  ⟨⟨by decide, by decide⟩,
    (checkDistributedTargetResultType_diagnose_gate (fun _ _ => false) ["Encodable"]
      "NotCodable" [] "Encodable" (by decide) (by decide) (by decide)).1,
    (checkDistributedTargetResultType_diagnose_gate (fun _ _ => false) ["Encodable"]
      "NotCodable" [] "Encodable" (by decide) (by decide) (by decide)).2.1⟩

/-- Sanity check: candidates matching the call-operation templates exactly are
accepted by the matcher, and the ad-hoc sweep over them reports no failure
and no diagnostics. -/
theorem remoteCall_exact_template_accepted :
    isDistributedActorSystemRemoteCall
        ⟨"remoteCall", AccessLevel.Public, 3, true, true, true, true,
          remoteCallLabels, true, true, true, some (STy.genericParam 2)⟩ false = true ∧
    isDistributedActorSystemRemoteCall
        ⟨"remoteCallVoid", AccessLevel.Public, 2, true, true, true, false,
          remoteCallVoidLabels, true, true, true, none⟩ true = true ∧
    checkDistributedActorSystemAdHocProtocolRequirements true AccessLevel.Public
        [⟨"remoteCall", AccessLevel.Public, 3, true, true, true, true,
          remoteCallLabels, true, true, true, some (STy.genericParam 2)⟩]
        [⟨"remoteCallVoid", AccessLevel.Public, 2, true, true, true, false,
          remoteCallVoidLabels, true, true, true, none⟩]
        true = (false, []) := by
  decide

/-- Sanity check: a unique decoding-operation candidate covering exactly the
Codable pair is resolved under the Codable serialization requirement. -/
theorem decodeNextArgument_unique_candidate_found :
    getDistributedActorArgumentDecodingMethod
        ({"Encodable", "Decodable"} : Finset String)
        [⟨"decodeNextArgument", false, true, 0, 1, STy.genericParam 0,
          [⟨STy.genericParam 0, RequirementKind.conformance, "Encodable"⟩,
           ⟨STy.genericParam 0, RequirementKind.conformance, "Decodable"⟩]⟩] =
      DecodeMethodResult.found
        ⟨"decodeNextArgument", false, true, 0, 1, STy.genericParam 0,
          [⟨STy.genericParam 0, RequirementKind.conformance, "Encodable"⟩,
           ⟨STy.genericParam 0, RequirementKind.conformance, "Decodable"⟩]⟩ := by
  decide
